import Mathlib

/-!
Verification of the federated event-search core in
`src/shared/tools/search-events.ts`.

The TypeScript handler is embedded shallowly:

* JavaScript string truthiness (`''` is falsy) is modelled by `truthyStr`.
* `String.prototype.toLowerCase` / `includes` are modelled by `lowerStr` /
  `strIncludes` (ASCII case folding, contiguous-substring containment).
* `new Date(s).getTime()` is modelled by an environment-supplied total
  function `parseTime : String → Int` (epoch milliseconds; negative for
  pre-1970 instants).
* `Array.prototype.sort` with the numeric comparator is a stable sort by
  the induced total preorder, modelled by `List.insertionSort` (any two
  stable sorts by the same total preorder agree).
* The network is an environment: the calendar listing is a value and each
  per-source `listEvents` call is a function of its request parameters
  returning `Except` (a thrown error is `.error`).  The handler also
  reports the list of network calls it issued, in order.
-/

/-- JS truthiness for an optional string: `undefined` and `''` are falsy. -/
def truthyStr : Option String → Option String
  | some "" => none
  | o => o

/-- `String.prototype.toLowerCase`, restricted to ASCII case folding. -/
def lowerStr (s : String) : String :=
  String.mk (s.data.map Char.toLower)

/-- Does `hay` start with `need`? (character-list version) -/
def startsWithChars : List Char → List Char → Bool
  | _, [] => true
  | [], _ :: _ => false
  | a :: as, b :: bs => a == b && startsWithChars as bs

/-- `String.prototype.includes`: `need` occurs contiguously in `hay`. -/
def containsChars : List Char → List Char → Bool
  | [], need => need.isEmpty
  | a :: as, need => startsWithChars (a :: as) need || containsChars as need

/-- `hay.includes(need)` on strings. -/
def strIncludes (hay need : String) : Bool :=
  containsChars hay.data need.data

/-- Google Calendar event start/end: either an instant or an all-day date. -/
structure EventDateTime where
  dateTime : Option String := none
  date : Option String := none
deriving DecidableEq, Repr

/-- An event attendee. -/
structure Attendee where
  email : Option String := none
  displayName : Option String := none
  self : Option Bool := none
  responseStatus : Option String := none
deriving DecidableEq, Repr

/-- A calendar event (the fields the search tool reads). -/
structure CalendarEvent where
  id : Option String := none
  summary : Option String := none
  description : Option String := none
  start : Option EventDateTime := none
  end_ : Option EventDateTime := none
  location : Option String := none
  attendees : Option (List Attendee) := none
  htmlLink : Option String := none
  hangoutLink : Option String := none
  status : Option String := none
deriving DecidableEq, Repr

/-- One entry of the caller's calendar list. -/
structure CalendarListItem where
  id : String
  summary : String
  accessRole : String
deriving DecidableEq, Repr

/-- `EventWithCalendar`: an event tagged with its originating calendar. -/
structure EventWithCalendar extends CalendarEvent where
  calendarId : String
  calendarName : String
deriving DecidableEq, Repr

/-- A value stored under a field name by the projection step. -/
inductive FieldVal where
  | str (s : String)
  | time (t : EventDateTime)
  | att (l : List Attendee)
deriving DecidableEq, Repr

/-- `DEFAULT_FIELDS` from the source. -/
def DEFAULT_FIELDS : List String :=
  ["id", "summary", "start", "end", "location", "htmlLink", "status",
   "attendees", "calendarId", "calendarName"]

/-- Own-property lookup on an `EventWithCalendar` (the `field in event`
test plus indexing): absent optional fields are absent properties. -/
def getField (e : EventWithCalendar) : String → Option FieldVal
  | "id" => e.id.map .str
  | "summary" => e.summary.map .str
  | "description" => e.description.map .str
  | "start" => e.start.map .time
  | "end" => e.end_.map .time
  | "location" => e.location.map .str
  | "attendees" => e.attendees.map .att
  | "htmlLink" => e.htmlLink.map .str
  | "hangoutLink" => e.hangoutLink.map .str
  | "status" => e.status.map .str
  | "calendarId" => some (.str e.calendarId)
  | "calendarName" => some (.str e.calendarName)
  | _ => none

/-- `pickFields`: keep the requested fields that are present on the event,
in request order. -/
def pickFields (e : EventWithCalendar) (fields : List String) :
    List (String × FieldVal) :=
  fields.filterMap fun f => (getField e f).map fun v => (f, v)

/-- The `calendarId` input: a plain string or an array of ids ("all" is the
string `"all"`). -/
inductive CalId where
  | str (s : String)
  | arr (ids : List String)
deriving DecidableEq, Repr

/-- The `orderBy` enum of the input schema. -/
inductive OrderBy where
  | startTime
  | updated
deriving DecidableEq, Repr

/-- The tool's input after zod parsing (defaults already applied). -/
structure SearchArgs where
  calendarId : CalId := .str "all"
  timeMin : Option String := none
  timeMax : Option String := none
  query : Option String := none
  maxResults : Nat := 50
  eventTypes : Option (List String) := none
  orderBy : Option OrderBy := none
  pageToken : Option String := none
  fields : Option (List String) := none
  singleEvents : Bool := true
deriving DecidableEq, Repr

/-- Result of one upstream `listEvents` call. -/
structure ListEventsResult where
  items : List CalendarEvent
  nextPageToken : Option String := none
deriving DecidableEq, Repr

/-- Parameters the handler passes to one upstream `listEvents` call. -/
structure ListEventsParams where
  calendarId : String
  timeMin : Option String
  timeMax : Option String
  maxResults : Nat
  singleEvents : Bool
  orderBy : Option OrderBy
  eventTypes : Option (List String)
  pageToken : Option String
deriving DecidableEq, Repr

/-- One network call issued by the handler. -/
inductive NetCall where
  | listCalendars
  | listEvents (p : ListEventsParams)
deriving DecidableEq, Repr

/-- The external world: credential, calendar listing, per-call event
listing (throwing calls are `.error`), and date parsing. -/
structure Env where
  providerToken : Option String
  calendarList : List CalendarListItem
  listEvents : ListEventsParams → Except String ListEventsResult
  parseTime : String → Int

/-- Access roles whose calendars are searched under `"all"`. -/
def ACCESS_ROLES : List String := ["owner", "writer", "reader"]

/-- The synthesized calendar-list entry for an explicitly given id. -/
def syntheticCalendar (id : String) : CalendarListItem :=
  { id := id
    summary := if id = "primary" then "Primary" else id
    accessRole := "reader" }

/-- Which calendars to search, from the `calendarId` selector. -/
def resolveCalendars (sel : CalId) (calendarList : List CalendarListItem) :
    List CalendarListItem :=
  match sel with
  | .str "all" => calendarList.filter fun c => ACCESS_ROLES.contains c.accessRole
  | .arr ids => ids.map syntheticCalendar
  | .str id => [syntheticCalendar id]

/-- Is the selector the literal string `"all"`? -/
def isAllSel : CalId → Bool
  | .str "all" => true
  | _ => false

/-- `!!args.query` (a present, non-empty query activates local filtering). -/
def hasLocalQuery (args : SearchArgs) : Bool :=
  (truthyStr args.query).isSome

/-- `fetchMultiplier` from the source. -/
def fetchMultiplier (args : SearchArgs) : Nat :=
  if hasLocalQuery args then 10 else 2

/-- `minFetchAmount` from the source. -/
def minFetchAmount (args : SearchArgs) : Nat :=
  if hasLocalQuery args then 100 else 10

/-- The over-fetch expression used for `maxResults` of each upstream call. -/
def fetchCapFormula (args : SearchArgs) : Nat :=
  min (max (args.maxResults * fetchMultiplier args) (minFetchAmount args)) 250

/-- The `maxResults` actually passed upstream (the source writes the same
expression in both branches of a conditional on the selector). -/
def plannedMaxResults (args : SearchArgs) : Nat :=
  if isAllSel args.calendarId then fetchCapFormula args else fetchCapFormula args

/-- The parameters of the upstream call for one calendar. -/
def listEventsParams (args : SearchArgs) (cal : CalendarListItem) :
    ListEventsParams :=
  { calendarId := cal.id
    timeMin := args.timeMin
    timeMax := args.timeMax
    maxResults := plannedMaxResults args
    singleEvents := args.singleEvents
    orderBy :=
      if args.singleEvents then some (args.orderBy.getD .startTime)
      else args.orderBy
    eventTypes := args.eventTypes
    pageToken := args.pageToken }

/-- The per-source outcome kept for aggregation. -/
structure SourceResult where
  calendar : CalendarListItem
  events : List EventWithCalendar
  nextPageToken : Option String := none
  error : Option String := none
deriving DecidableEq, Repr

/-- Tag an upstream event with its calendar. -/
def withCalendar (cal : CalendarListItem) (e : CalendarEvent) :
    EventWithCalendar :=
  { toCalendarEvent := e, calendarId := cal.id, calendarName := cal.summary }

/-- One per-source fetch with its error isolation: a throwing call becomes
an empty event list plus a recorded message. -/
def fetchSource (args : SearchArgs) (env : Env) (cal : CalendarListItem) :
    SourceResult :=
  match env.listEvents (listEventsParams args cal) with
  | .ok res =>
      { calendar := cal
        events := res.items.map (withCalendar cal)
        nextPageToken := res.nextPageToken
        error := none }
  | .error msg =>
      { calendar := cal, events := [], nextPageToken := none, error := some msg }

/-- All per-source results, in resolution order. -/
def sourceResults (args : SearchArgs) (env : Env) : List SourceResult :=
  (resolveCalendars args.calendarId env.calendarList).map (fetchSource args env)

/-- The candidate text fields of one event, in source order. -/
def searchableFields (e : CalendarEvent) : List (Option String) :=
  [e.summary, e.description, e.location]
    ++ (e.attendees.getD []).map (·.email)
    ++ (e.attendees.getD []).map (·.displayName)

/-- `field && field.toLowerCase().includes(lowerQuery)`. -/
def fieldMatches (lowerQuery : String) : Option String → Bool
  | some s => s ≠ "" && strIncludes (lowerStr s) lowerQuery
  | none => false

/-- `matchesQuerySubstring` from the source: case-insensitive contiguous
substring match over the candidate fields. -/
def matchesQuerySubstring (e : CalendarEvent) (query : String) : Bool :=
  (searchableFields e).any (fieldMatches (lowerStr query))

/-- All fetched events flattened, sources in resolution order. -/
def mergedEvents (args : SearchArgs) (env : Env) : List EventWithCalendar :=
  (sourceResults args env).flatMap (·.events)

/-- The merged list after the optional local substring filter. -/
def filteredEvents (args : SearchArgs) (env : Env) : List EventWithCalendar :=
  match truthyStr args.query with
  | some q => (mergedEvents args env).filter
      fun e => matchesQuerySubstring e.toCalendarEvent q
  | none => mergedEvents args env

/-- The truthy start string: `event.start?.dateTime || event.start?.date`. -/
def startDateString (e : CalendarEvent) : Option String :=
  (truthyStr (e.start.bind (·.dateTime))).orElse
    fun _ => truthyStr (e.start.bind (·.date))

/-- `getEventStartTime`: epoch milliseconds, `0` when no start resolves. -/
def getEventStartTime (parse : String → Int) (e : CalendarEvent) : Int :=
  match startDateString e with
  | none => 0
  | some s => parse s

/-- The comparator's preorder: earlier (or equal) start instant. -/
def startLE (parse : String → Int) (a b : EventWithCalendar) : Prop :=
  getEventStartTime parse a.toCalendarEvent ≤ getEventStartTime parse b.toCalendarEvent

instance (parse : String → Int) : DecidableRel (startLE parse) :=
  fun _ _ => Int.decLe _ _

instance (parse : String → Int) : IsTotal EventWithCalendar (startLE parse) :=
  ⟨fun _ _ => Int.le_total _ _⟩

instance (parse : String → Int) : IsTrans EventWithCalendar (startLE parse) :=
  ⟨fun _ _ _ => Int.le_trans⟩

/-- The sort-guard: recurrence expanded and effective ordering start-time. -/
def usesStartTimeOrder (args : SearchArgs) : Bool :=
  args.singleEvents
    && (decide (args.orderBy = some OrderBy.startTime)
        || decide (args.orderBy = none))

/-- The merged, filtered list after the conditional stable sort. -/
def sortedEvents (args : SearchArgs) (env : Env) : List EventWithCalendar :=
  if usesStartTimeOrder args then
    List.insertionSort (startLE env.parseTime) (filteredEvents args env)
  else
    filteredEvents args env

/-- `hasMore`: whether the list was longer than the requested total. -/
def hasMoreFlag (args : SearchArgs) (env : Env) : Bool :=
  decide ((sortedEvents args env).length > args.maxResults)

/-- The final capped event list. -/
def cappedEvents (args : SearchArgs) (env : Env) : List EventWithCalendar :=
  (sortedEvents args env).take args.maxResults

/-- The field subset used for projection. -/
def effectiveFields (args : SearchArgs) : List String :=
  match args.fields with
  | some fs => if fs.length > 0 then fs else DEFAULT_FIELDS
  | none => DEFAULT_FIELDS

/-- The structured items: each capped event projected to the field subset. -/
def structuredItems (args : SearchArgs) (env : Env) :
    List (List (String × FieldVal)) :=
  (cappedEvents args env).map fun e => pickFields e (effectiveFields args)

/-- Display names of sources whose fetch succeeded. -/
def searchedCalendars (args : SearchArgs) (env : Env) : List String :=
  ((sourceResults args env).filter fun r => (truthyStr r.error).isNone).map
    (·.calendar.summary)

/-- Display names of sources whose fetch failed. -/
def failedCalendars (args : SearchArgs) (env : Env) : List String :=
  ((sourceResults args env).filter fun r => (truthyStr r.error).isSome).map
    (·.calendar.summary)

/-- The response-status labels shown for the caller's own attendance. -/
def responseLabel : String → Option String
  | "accepted" => some "you: accepted"
  | "declined" => some "you: declined"
  | "tentative" => some "you: maybe"
  | "needsAction" => some "you: not responded"
  | _ => none

/-- `formatEventLine`: the per-event summary line. -/
def formatEventLine (event : EventWithCalendar) : String :=
  let start := (startDateString event.toCalendarEvent).getD "no date"
  let title := (truthyStr event.summary).getD "(no title)"
  let calendar :=
    if event.calendarName ≠ "" then " (" ++ event.calendarName ++ ")" else ""
  let selfAttendee := (event.attendees.getD []).find? fun a =>
    decide (a.self = some true)
  let statusInfo :=
    match selfAttendee.bind fun a => truthyStr a.responseStatus with
    | some rs => " [" ++ ((responseLabel rs).getD rs) ++ "]"
    | none => if event.status = some "cancelled" then " [cancelled]" else ""
  match truthyStr event.htmlLink with
  | some link =>
      "- [" ++ title ++ "](" ++ link ++ ") — " ++ start ++ calendar ++ statusInfo
  | none => "- " ++ title ++ " — " ++ start ++ calendar ++ statusInfo

/-- The secondary lines under one event (location, attendees, meet link). -/
def eventDetailLines (event : EventWithCalendar) : List String :=
  (match truthyStr event.location with
   | some loc => ["  location: " ++ loc]
   | none => [])
  ++ (match event.attendees with
      | some atts =>
        if atts.length > 0 then
          let attendeeList :=
            String.intercalate ", " ((atts.take 5).map fun a => a.email.getD "")
          let more :=
            if atts.length > 5 then
              " +" ++ toString (atts.length - 5) ++ " more"
            else ""
          ["  attendees: " ++ attendeeList ++ more]
        else []
      | none => [])
  ++ (match truthyStr event.hangoutLink with
      | some link => ["  meet: " ++ link]
      | none => [])

/-- The failed-sources summary line. -/
def failedLine (names : List String) : String :=
  "(Failed to search: " ++ String.intercalate ", " names ++ ")"

/-- The summary header: only for the `"all"` selector with more than one
successfully searched calendar; names failed calendars when any exist. -/
def headerLines (args : SearchArgs) (env : Env) : List String :=
  if isAllSel args.calendarId
      && decide ((searchedCalendars args env).length > 1) then
    ["Searched " ++ toString (searchedCalendars args env).length
       ++ " calendar(s): " ++ String.intercalate ", " (searchedCalendars args env)]
    ++ (if (failedCalendars args env).length > 0 then
          [failedLine (failedCalendars args env)]
        else [])
    ++ [""]
  else []

/-- The event-list block of the rendering. -/
def eventListLines (args : SearchArgs) (env : Env) : List String :=
  if (cappedEvents args env).length = 0 then
    ["No events found matching the criteria."]
  else
    ["Found " ++ toString (cappedEvents args env).length ++ " event(s)"
       ++ (if hasMoreFlag args env then " (more available)" else "") ++ ":\n"]
    ++ (cappedEvents args env).flatMap fun e =>
        formatEventLine e :: eventDetailLines e

/-- `results[0]` when exactly one calendar was searched, else `null`. -/
def singleCalendarResult (args : SearchArgs) (env : Env) : Option SourceResult :=
  if (resolveCalendars args.calendarId env.calendarList).length = 1 then
    (sourceResults args env).head?
  else none

/-- The pagination-hint line carrying an upstream page token. -/
def pageTokenHintLine (t : String) : String :=
  "\nMore results available. Pass pageToken: \"" ++ t ++ "\" to fetch next page."

/-- The pagination-hint line shown instead when only `hasMore` is known. -/
def hasMoreHintLine : String :=
  "\nMore results available. Increase maxResults or narrow your time range."

/-- The pagination block: the token hint needs a non-empty shown result, a
single searched calendar with a truthy upstream token, and no text query;
otherwise a plain has-more hint when applicable. -/
def paginationLines (args : SearchArgs) (env : Env) : List String :=
  let hasResultsToShow : Bool := decide ((cappedEvents args env).length > 0)
  let tok := (singleCalendarResult args env).bind fun r => truthyStr r.nextPageToken
  match hasResultsToShow, tok, truthyStr args.query with
  | true, some t, none => [pageTokenHintLine t]
  | _, _, _ =>
    if hasResultsToShow && hasMoreFlag args env then [hasMoreHintLine] else []

/-- The closing note of the rendering. -/
def NOTE_LINE : String :=
  "\nNote: Use the calendarId from results when calling \x27update_event\x27 or \x27delete_event\x27."

/-- All rendered lines, in push order. -/
def renderedLines (args : SearchArgs) (env : Env) : List String :=
  headerLines args env ++ eventListLines args env
    ++ paginationLines args env ++ [NOTE_LINE]

/-- The machine-readable half of the response. -/
structure StructuredContent where
  items : List (List (String × FieldVal))
  calendarsSearched : List String
  nextPageToken : Option String
deriving DecidableEq, Repr

/-- The tool result: error flag, text blocks, optional structured payload. -/
structure ToolResult where
  isError : Bool := false
  content : List String
  structuredContent : Option StructuredContent := none
deriving DecidableEq, Repr

/-- `singleCalendarResult?.nextPageToken` as placed in the structured
payload (an optional chain, with no truthiness test). -/
def structuredNextPageToken (args : SearchArgs) (env : Env) : Option String :=
  (singleCalendarResult args env).bind (·.nextPageToken)

/-- The authentication-failure text. -/
def AUTH_ERROR_TEXT : String :=
  "Authentication required. Please authenticate with Google Calendar."

/-- The pagination-validation failure text. -/
def PAGE_TOKEN_ERROR_TEXT : String :=
  "Pagination (pageToken) only works when searching a single calendar. Specify a calendarId to use pagination."

/-- The result returned when no credential is present. -/
def authErrorResult : ToolResult :=
  { isError := true, content := [AUTH_ERROR_TEXT] }

/-- The `ValidationError` result for a page token with a non-single
resolved calendar set. -/
def pageTokenErrorResult : ToolResult :=
  { isError := true, content := [PAGE_TOKEN_ERROR_TEXT] }

/-- Network calls issued while resolving the selector (`listCalendars`
only for `"all"`). -/
def resolutionCalls (sel : CalId) : List NetCall :=
  if isAllSel sel then [NetCall.listCalendars] else []

/-- The per-source event-listing calls, in resolution order. -/
def fetchCalls (args : SearchArgs) (env : Env) : List NetCall :=
  (resolveCalendars args.calendarId env.calendarList).map fun cal =>
    NetCall.listEvents (listEventsParams args cal)

/-- The successful response: rendered text plus structured payload. -/
def successResult (args : SearchArgs) (env : Env) : ToolResult :=
  { isError := false
    content := [String.intercalate "\n" (renderedLines args env)]
    structuredContent := some
      { items := structuredItems args env
        calendarsSearched := searchedCalendars args env
        nextPageToken := structuredNextPageToken args env } }

/-- The whole handler: the produced result and the ordered list of network
calls it issued. -/
def runSearchEvents (args : SearchArgs) (env : Env) :
    ToolResult × List NetCall :=
  if (truthyStr env.providerToken).isNone then
    (authErrorResult, [])
  else if (truthyStr args.pageToken).isSome
      && decide ((resolveCalendars args.calendarId env.calendarList).length ≠ 1) then
    (pageTokenErrorResult, resolutionCalls args.calendarId)
  else
    (successResult args env, resolutionCalls args.calendarId ++ fetchCalls args env)

/-! ### Claim-side formulas and concrete fixtures -/

/-- The per-source fetch cap as the specification's claim states it, keyed
on the `textQuery` being present. -/
def claimFetchCap (args : SearchArgs) : Nat :=
  if args.query.isSome then min (max (args.maxResults * 10) 100) 250
  else min (max (args.maxResults * 2) 10) 250

/-- The per-source fetch cap with the amendment: keyed on a present and
non-empty `textQuery`. -/
def specFetchCap (args : SearchArgs) : Nat :=
  if args.query.any (fun q => decide (q ≠ "")) then
    min (max (args.maxResults * 10) 100) 250
  else min (max (args.maxResults * 2) 10) 250

/-- Fixture: an event whose title contains the query only as a substring. -/
def c1BarberEvent : CalendarEvent :=
  { summary := some "Barbershop appointment"
    start := some { dateTime := some "2025-01-01T10:00:00Z" } }

/-- Fixture: single calendar, non-empty query. -/
def c1Args : SearchArgs := { calendarId := .str "work", query := some "barber" }

/-- Fixture: the single upstream page carries a continuation token. -/
def c1Env : Env :=
  { providerToken := some "tok"
    calendarList := []
    listEvents := fun _ =>
      .ok { items := [c1BarberEvent], nextPageToken := some "TOK" }
    parseTime := fun _ => 0 }

/-- Fixture: the `"all"` selector together with a page token. -/
def c2Args : SearchArgs := { calendarId := .str "all", pageToken := some "T" }

/-- Fixture: two accessible calendars. -/
def c2Env : Env :=
  { providerToken := some "tok"
    calendarList :=
      [{ id := "a", summary := "A", accessRole := "owner" },
       { id := "b", summary := "B", accessRole := "writer" }]
    listEvents := fun _ => .ok { items := [] }
    parseTime := fun _ => 0 }

/-- Fixture: an explicit two-id selector. -/
def c3Args : SearchArgs := { calendarId := .arr ["a", "b"] }

/-- Fixture: the fetch for calendar `a` raises. -/
def c3Env : Env :=
  { providerToken := some "tok"
    calendarList := []
    listEvents := fun p =>
      if p.calendarId = "a" then .error "boom" else .ok { items := [] }
    parseTime := fun _ => 0 }

/-- Fixture: the `"all"` selector for the amended C3 statement. -/
def c3wArgs : SearchArgs := { calendarId := .str "all" }

/-- Fixture: three accessible calendars, the first of which fails. -/
def c3wEnv : Env :=
  { providerToken := some "tok"
    calendarList :=
      [{ id := "a", summary := "A", accessRole := "owner" },
       { id := "b", summary := "B", accessRole := "owner" },
       { id := "c", summary := "C", accessRole := "owner" }]
    listEvents := fun p =>
      if p.calendarId = "a" then .error "boom" else .ok { items := [] }
    parseTime := fun _ => 0 }

/-- Fixture: an event matching "barber" only as a substring. -/
def c4BarberEvent : CalendarEvent :=
  { summary := some "Barbershop appointment"
    start := some { dateTime := some "2025-01-01T10:00:00Z" } }

/-- Fixture: an event not matching the query. -/
def c4OtherEvent : CalendarEvent :=
  { summary := some "Dentist"
    start := some { dateTime := some "2025-01-02T10:00:00Z" } }

/-- Fixture: single calendar with query "barber". -/
def c4Args : SearchArgs := { calendarId := .str "work", query := some "barber" }

/-- Fixture: one page holding both events. -/
def c4Env : Env :=
  { providerToken := some "tok"
    calendarList := []
    listEvents := fun _ =>
      .ok { items := [c4BarberEvent, c4OtherEvent], nextPageToken := none }
    parseTime := fun _ => 0 }

/-- Fixture: events fetched from three explicit calendars. -/
def c6EventB : CalendarEvent := { summary := some "standup" }

/-- Fixture: the event of the third calendar. -/
def c6EventC : CalendarEvent := { summary := some "retro" }

/-- Fixture: an explicit three-id selector. -/
def c6Args : SearchArgs := { calendarId := .arr ["a", "b", "c"] }

/-- Fixture: calendar `a` raises, `b` and `c` succeed. -/
def c6Env : Env :=
  { providerToken := some "tok"
    calendarList := []
    listEvents := fun p =>
      if p.calendarId = "a" then .error "network down"
      else if p.calendarId = "b" then .ok { items := [c6EventB] }
      else .ok { items := [c6EventC] }
    parseTime := fun _ => 0 }

/-- Fixture: an event dated before the Unix epoch. -/
def ev1960 : CalendarEvent :=
  { summary := some "old", start := some { date := some "1960-01-01" } }

/-- Fixture: an event with no resolvable start time. -/
def evNoStart : CalendarEvent := { summary := some "undated" }

/-- Fixture: a single-calendar request with default ordering. -/
def c8Args : SearchArgs := { calendarId := .str "work" }

/-- Fixture: the pre-1970 date parses to negative epoch milliseconds. -/
def c8Env : Env :=
  { providerToken := some "tok"
    calendarList := []
    listEvents := fun _ => .ok { items := [evNoStart, ev1960] }
    parseTime := fun s => if s = "1960-01-01" then -315619200000 else 0 }

/-- Fixture: the `"all"` selector over a mixed-access calendar list. -/
def c9Args : SearchArgs := { calendarId := .str "all" }

/-- Fixture: one calendar has a non-readable access role. -/
def c9Env : Env :=
  { providerToken := some "tok"
    calendarList :=
      [{ id := "a", summary := "A", accessRole := "owner" },
       { id := "b", summary := "B", accessRole := "freeBusyReader" },
       { id := "c", summary := "C", accessRole := "reader" }]
    listEvents := fun _ => .ok { items := [] }
    parseTime := fun _ => 0 }

/-- Fixture: `fields` supplied as the empty list. -/
def c10Args : SearchArgs := { calendarId := .str "work", fields := some [] }

/-- Fixture: one fetched event. -/
def c10Event : CalendarEvent := { summary := some "standup" }

/-- Fixture: a single successful calendar. -/
def c10Env : Env :=
  { providerToken := some "tok"
    calendarList := []
    listEvents := fun _ => .ok { items := [c10Event] }
    parseTime := fun _ => 0 }

/-! ### Helper lemmas -/

/-- Truthiness of an optional string, as an if-then-else. -/
theorem truthyStr_eq (o : Option String) :
    truthyStr o = if o = some "" then none else o := by
  unfold truthyStr
  split
  · simp
  · next h =>
    rw [if_neg h]

/-- A non-empty string is truthy. -/
theorem truthyStr_some_ne {q : String} (h : q ≠ "") :
    truthyStr (some q) = some q := by
  rw [truthyStr_eq, if_neg]
  simp [h]

/-- The conditional sort does not change the list's length. -/
theorem sortedEvents_length (args : SearchArgs) (env : Env) :
    (sortedEvents args env).length = (filteredEvents args env).length := by
  unfold sortedEvents
  split
  · exact List.length_insertionSort _ _
  · rfl

/-- Every capped event came through the filter stage. -/
theorem mem_filteredEvents_of_mem_capped {args : SearchArgs} {env : Env}
    {e : EventWithCalendar} (h : e ∈ cappedEvents args env) :
    e ∈ filteredEvents args env := by
  have h1 : e ∈ sortedEvents args env := List.mem_of_mem_take h
  unfold sortedEvents at h1
  split at h1
  · exact (List.mem_insertionSort _).mp h1
  · exact h1

/-- A truthy credential fails the handler's absence test. -/
theorem providerToken_isNone_false {env : Env}
    (htok : (truthyStr env.providerToken).isSome = true) :
    (truthyStr env.providerToken).isNone = false := by
  cases h : truthyStr env.providerToken with
  | none => rw [h] at htok; simp at htok
  | some _ => rfl

/-- With a credential and no page token, the handler reaches the success
branch and issues the resolution calls followed by the per-source calls. -/
theorem runSearchEvents_success (args : SearchArgs) (env : Env)
    (htok : (truthyStr env.providerToken).isSome = true)
    (hpt : args.pageToken = none) :
    runSearchEvents args env
      = (successResult args env,
         resolutionCalls args.calendarId ++ fetchCalls args env) := by
  have h1 := providerToken_isNone_false htok
  have h2 : truthyStr args.pageToken = none := by rw [hpt]; rfl
  simp [runSearchEvents, h1, h2]

/-! ### C1 -/

/-- C1: a single-source request with a non-empty `textQuery`, a non-empty
capped result and an upstream continuation token.  The rendered text omits
the token (no line carries it), but the structured payload still carries
it, so the complete response does not omit the continuation token: the
claimed suppression fails for the structured half. -/
theorem pageToken_suppression_violated :
    hasLocalQuery c1Args = true
      ∧ (resolveCalendars c1Args.calendarId c1Env.calendarList).length = 1
      ∧ (cappedEvents c1Args c1Env).length > 0
      ∧ (singleCalendarResult c1Args c1Env).bind (·.nextPageToken) = some "TOK"
      ∧ (runSearchEvents c1Args c1Env).1.isError = false
      ∧ pageTokenHintLine "TOK" ∉ renderedLines c1Args c1Env
      ∧ (renderedLines c1Args c1Env).all (fun l => !strIncludes l "TOK") = true
      ∧ ((runSearchEvents c1Args c1Env).1.structuredContent.map (·.nextPageToken))
          = some (some "TOK") := by
  decide

/-! ### C2 -/

/-- C2 counterexample: with the `"all"` selector, two accessible calendars
and a page token, the handler does return the validation error, but it has
already issued the calendar-listing network call, so its network-call list
is not empty. -/
theorem pageToken_validation_counterexample :
    (truthyStr c2Args.pageToken).isSome = true
      ∧ (resolveCalendars c2Args.calendarId c2Env.calendarList).length ≠ 1
      ∧ (runSearchEvents c2Args c2Env).1 = pageTokenErrorResult
      ∧ (runSearchEvents c2Args c2Env).2 = [NetCall.listCalendars]
      ∧ (runSearchEvents c2Args c2Env).2 ≠ [] := by
  decide

/-- C2 amended: a truthy page token with a resolved set of size ≠ 1 yields
the validation-error result before any per-source event fetch — no
`listEvents` call is issued — though for the `"all"` selector the
calendar-listing call has already been made. -/
theorem pageToken_validation_no_fetch (args : SearchArgs) (env : Env)
    (htok : (truthyStr env.providerToken).isSome = true)
    (hpt : (truthyStr args.pageToken).isSome = true)
    (hn : (resolveCalendars args.calendarId env.calendarList).length ≠ 1) :
    (runSearchEvents args env).1 = pageTokenErrorResult
      ∧ ∀ c ∈ (runSearchEvents args env).2, ∀ p, c ≠ NetCall.listEvents p := by
  have h1 := providerToken_isNone_false htok
  have hrun : runSearchEvents args env
      = (pageTokenErrorResult, resolutionCalls args.calendarId) := by
    simp [runSearchEvents, h1, hpt, hn]
  rw [hrun]
  refine ⟨rfl, fun c hc p => ?_⟩
  unfold resolutionCalls at hc
  split at hc
  · simp at hc
    simp [hc]
  · simp at hc

theorem pageToken_validation_no_fetch_witness :
    (runSearchEvents c2Args c2Env).1 = pageTokenErrorResult
      ∧ ∀ c ∈ (runSearchEvents c2Args c2Env).2, ∀ p, c ≠ NetCall.listEvents p :=
  pageToken_validation_no_fetch c2Args c2Env (by decide) (by decide) (by decide)

/-! ### C3 -/

/-- C3 counterexample: with an explicit two-id selector and one failing
source, the overall call succeeds, yet no rendered line names the failed
source: the rendering is just the empty-result line plus the note. -/
theorem failed_sources_unlisted_counterexample :
    failedCalendars c3Args c3Env = ["a"]
      ∧ (runSearchEvents c3Args c3Env).1.isError = false
      ∧ failedLine ["a"] ∉ renderedLines c3Args c3Env
      ∧ renderedLines c3Args c3Env
          = ["No events found matching the criteria.", NOTE_LINE] := by
  decide

/-- C3 amended: the failed sources are listed by display name only when
the selector is `"all"` and more than one source searched successfully; in
that case the summary contains the failed-sources line and the overall
call still reports success. -/
theorem failed_sources_listed_for_all (args : SearchArgs) (env : Env)
    (htok : (truthyStr env.providerToken).isSome = true)
    (hpt : args.pageToken = none)
    (hall : args.calendarId = .str "all")
    (hmany : 1 < (searchedCalendars args env).length)
    (hfail : failedCalendars args env ≠ []) :
    failedLine (failedCalendars args env) ∈ renderedLines args env
      ∧ (runSearchEvents args env).1.isError = false := by
  constructor
  · have hflen : 0 < (failedCalendars args env).length :=
      List.length_pos.mpr hfail
    unfold renderedLines headerLines
    rw [hall]
    simp [isAllSel, hmany, hflen]
  · rw [runSearchEvents_success args env htok hpt]
    rfl

theorem failed_sources_listed_for_all_witness :
    failedLine (failedCalendars c3wArgs c3wEnv) ∈ renderedLines c3wArgs c3wEnv
      ∧ (runSearchEvents c3wArgs c3wEnv).1.isError = false :=
  failed_sources_listed_for_all c3wArgs c3wEnv (by decide) rfl rfl
    (by decide) (by decide)

/-! ### C4 -/

/-- C4: with a non-empty `textQuery`, every event in the final result
passes the local substring filter: some candidate field (title,
description, location, attendee email or display name) is present and
contains the case-folded query as a contiguous substring. -/
theorem query_filter_sound (args : SearchArgs) (env : Env) (q : String)
    (hq : args.query = some q) (hne : q ≠ "") :
    ∀ e ∈ cappedEvents args env,
      matchesQuerySubstring e.toCalendarEvent q = true
        ∧ ∃ f ∈ searchableFields e.toCalendarEvent, ∃ s,
            f = some s ∧ strIncludes (lowerStr s) (lowerStr q) = true := by
  intro e he
  have h1 : e ∈ filteredEvents args env := mem_filteredEvents_of_mem_capped he
  have h2 : matchesQuerySubstring e.toCalendarEvent q = true := by
    unfold filteredEvents at h1
    rw [hq, truthyStr_some_ne hne] at h1
    exact (List.mem_filter.mp h1).2
  refine ⟨h2, ?_⟩
  obtain ⟨f, hf, hmatch⟩ := List.any_eq_true.mp h2
  cases f with
  | none => simp [fieldMatches] at hmatch
  | some s =>
    refine ⟨some s, hf, s, rfl, ?_⟩
    unfold fieldMatches at hmatch
    simp only [Bool.and_eq_true] at hmatch
    exact hmatch.2

theorem query_filter_sound_witness :
    matchesQuerySubstring
        (withCalendar (syntheticCalendar "work") c4BarberEvent).toCalendarEvent
        "barber" = true
      ∧ ∃ f ∈ searchableFields
            (withCalendar (syntheticCalendar "work") c4BarberEvent).toCalendarEvent,
          ∃ s, f = some s
            ∧ strIncludes (lowerStr s) (lowerStr "barber") = true :=
  query_filter_sound c4Args c4Env "barber" rfl (by decide)
    (withCalendar (syntheticCalendar "work") c4BarberEvent) (by decide)

/-! ### C5 -/

/-- C5: the final event list (and its projection) never exceeds
`maxResults`, and `hasMore` holds exactly when the merged post-filter
sequence was strictly longer than `maxResults` before truncation. -/
theorem capped_length_and_hasMore (args : SearchArgs) (env : Env) :
    (cappedEvents args env).length ≤ args.maxResults
      ∧ (structuredItems args env).length ≤ args.maxResults
      ∧ (hasMoreFlag args env = true ↔
          (filteredEvents args env).length > args.maxResults) := by
  have h1 : (cappedEvents args env).length ≤ args.maxResults := by
    simpa only [cappedEvents] using
      List.length_take_le args.maxResults (sortedEvents args env)
  refine ⟨h1, ?_, ?_⟩
  · simpa only [structuredItems, List.length_map] using h1
  · simp [hasMoreFlag, sortedEvents_length]

/-! ### C6 -/

/-- C6: in a multi-source request, a raising per-source fetch is recorded
as an entry with an empty event list and the error message (and still
appears among the per-source results), every successful source's events
all appear in the merged sequence, and the overall call is not an error. -/
theorem partial_failure_isolated (args : SearchArgs) (env : Env)
    (htok : (truthyStr env.providerToken).isSome = true)
    (hpt : args.pageToken = none)
    (hmulti : 2 ≤ (resolveCalendars args.calendarId env.calendarList).length)
    (hfail : ∃ cal ∈ resolveCalendars args.calendarId env.calendarList,
        ∃ msg, env.listEvents (listEventsParams args cal) = .error msg)
    (hsucc : ∃ cal ∈ resolveCalendars args.calendarId env.calendarList,
        ∃ res, env.listEvents (listEventsParams args cal) = .ok res) :
    (∀ cal ∈ resolveCalendars args.calendarId env.calendarList, ∀ msg,
        env.listEvents (listEventsParams args cal) = .error msg →
          fetchSource args env cal
              = { calendar := cal, events := [], nextPageToken := none,
                  error := some msg }
            ∧ fetchSource args env cal ∈ sourceResults args env)
      ∧ (∀ cal ∈ resolveCalendars args.calendarId env.calendarList, ∀ res,
          env.listEvents (listEventsParams args cal) = .ok res →
            ∀ e ∈ res.items.map (withCalendar cal), e ∈ mergedEvents args env)
      ∧ (runSearchEvents args env).1.isError = false := by
  refine ⟨?_, ?_, ?_⟩
  · intro cal hcal msg hmsg
    constructor
    · unfold fetchSource
      rw [hmsg]
    · exact List.mem_map_of_mem _ hcal
  · intro cal hcal res hres e he
    have hev : (fetchSource args env cal).events
        = res.items.map (withCalendar cal) := by
      unfold fetchSource
      rw [hres]
    unfold mergedEvents
    refine List.mem_flatMap.mpr
      ⟨fetchSource args env cal, List.mem_map_of_mem _ hcal, ?_⟩
    rw [hev]
    exact he
  · rw [runSearchEvents_success args env htok hpt]
    rfl

theorem partial_failure_isolated_witness :
    fetchSource c6Args c6Env (syntheticCalendar "a")
        = { calendar := syntheticCalendar "a", events := [],
            nextPageToken := none, error := some "network down" }
      ∧ withCalendar (syntheticCalendar "b") c6EventB ∈ mergedEvents c6Args c6Env
      ∧ (runSearchEvents c6Args c6Env).1.isError = false := by
  have h := partial_failure_isolated c6Args c6Env (by decide) rfl (by decide)
    ⟨syntheticCalendar "a", by decide, "network down", rfl⟩
    ⟨syntheticCalendar "b", by decide, { items := [c6EventB] }, rfl⟩
  exact ⟨(h.1 (syntheticCalendar "a") (by decide) "network down" rfl).1,
         h.2.1 (syntheticCalendar "b") (by decide) { items := [c6EventB] }
           rfl (withCalendar (syntheticCalendar "b") c6EventB) (by decide),
         h.2.2⟩

/-! ### C7 -/

/-- C7 counterexample: a present-but-empty `textQuery` is planned with the
no-query multiplier and floor, so the claimed formula (keyed on mere
presence) disagrees with the code at `query = some ""`, `maxResults = 50`:
the code plans 100 where the claimed formula gives 250. -/
theorem fetchCap_present_query_counterexample :
    plannedMaxResults { calendarId := CalId.str "work", query := some "",
                        maxResults := 50 } = 100
      ∧ claimFetchCap { calendarId := CalId.str "work", query := some "",
                        maxResults := 50 } = 250
      ∧ plannedMaxResults { calendarId := CalId.str "work", query := some "",
                            maxResults := 50 }
          ≠ claimFetchCap { calendarId := CalId.str "work", query := some "",
                            maxResults := 50 } := by
  decide

/-- C7 amended: the per-source fetch cap equals
`min(max(maxResults * m, f), 250)` with `m = 10, f = 100` when a non-empty
`textQuery` is present and `m = 2, f = 10` otherwise; it never exceeds 250
and is passed unchanged to every resolved source. -/
theorem fetchCap_policy (args : SearchArgs) (env : Env) :
    plannedMaxResults args = specFetchCap args
      ∧ plannedMaxResults args ≤ 250
      ∧ ∀ cal ∈ resolveCalendars args.calendarId env.calendarList,
          (listEventsParams args cal).maxResults = plannedMaxResults args := by
  have hplan : plannedMaxResults args = fetchCapFormula args := by
    unfold plannedMaxResults
    split <;> rfl
  refine ⟨?_, ?_, fun cal _ => rfl⟩
  · rw [hplan]
    unfold fetchCapFormula specFetchCap fetchMultiplier minFetchAmount hasLocalQuery
    cases hq : args.query with
    | none => simp [truthyStr]
    | some q =>
      by_cases hqe : q = ""
      · subst hqe
        simp [truthyStr]
      · rw [truthyStr_some_ne hqe]
        simp [hqe]
  · rw [hplan]
    exact Nat.min_le_right _ _

/-! ### C8 -/

/-- C8 counterexample: the ordering preconditions hold and the undated
event has no resolvable start (key 0), yet it does not sort to the
earliest position: the pre-1970 event, whose start parses to negative
epoch milliseconds, precedes it. -/
theorem missing_start_not_earliest_counterexample :
    usesStartTimeOrder c8Args = true
      ∧ startDateString evNoStart = none
      ∧ getEventStartTime c8Env.parseTime evNoStart = 0
      ∧ getEventStartTime c8Env.parseTime ev1960 < 0
      ∧ sortedEvents c8Args c8Env
          = [withCalendar (syntheticCalendar "work") ev1960,
             withCalendar (syntheticCalendar "work") evNoStart]
      ∧ (sortedEvents c8Args c8Env).head?
          ≠ some (withCalendar (syntheticCalendar "work") evNoStart) := by
  decide

/-- C8 amended: under recurrence expansion with start-time ordering
(explicit or default) the result is sorted by start instant ascending and
the sort is stable (a permutation of the filtered sequence that preserves
the relative order of every comparator-ordered pair); an event with no
resolvable start time is treated as time zero, so it precedes every event
with a nonnegative start instant, but events with negative (pre-1970)
start instants precede it. -/
theorem sorted_by_start_stable (args : SearchArgs) (env : Env)
    (hs : args.singleEvents = true)
    (ho : args.orderBy = some OrderBy.startTime ∨ args.orderBy = none) :
    (sortedEvents args env).Sorted (startLE env.parseTime)
      ∧ List.Perm (sortedEvents args env) (filteredEvents args env)
      ∧ (∀ a b : EventWithCalendar, startLE env.parseTime a b →
            List.Sublist [a, b] (filteredEvents args env) →
            List.Sublist [a, b] (sortedEvents args env))
      ∧ (∀ e : CalendarEvent, startDateString e = none →
            getEventStartTime env.parseTime e = 0) := by
  have hcond : usesStartTimeOrder args = true := by
    unfold usesStartTimeOrder
    rcases ho with h | h <;> simp [hs, h]
  have hsorted : sortedEvents args env
      = List.insertionSort (startLE env.parseTime) (filteredEvents args env) := by
    unfold sortedEvents
    rw [if_pos hcond]
  refine ⟨?_, ?_, ?_, ?_⟩
  · rw [hsorted]
    exact List.sorted_insertionSort _ _
  · rw [hsorted]
    exact List.perm_insertionSort _ _
  · intro a b hab hsub
    rw [hsorted]
    exact List.pair_sublist_insertionSort hab hsub
  · intro e he
    unfold getEventStartTime
    rw [he]

theorem sorted_by_start_stable_witness :
    (sortedEvents c8Args c8Env).Sorted (startLE c8Env.parseTime)
      ∧ List.Perm (sortedEvents c8Args c8Env) (filteredEvents c8Args c8Env)
      ∧ (∀ a b : EventWithCalendar, startLE c8Env.parseTime a b →
            List.Sublist [a, b] (filteredEvents c8Args c8Env) →
            List.Sublist [a, b] (sortedEvents c8Args c8Env))
      ∧ (∀ e : CalendarEvent, startDateString e = none →
            getEventStartTime c8Env.parseTime e = 0) :=
  sorted_by_start_stable c8Args c8Env rfl (Or.inr rfl)

/-! ### C9 -/

/-- C9: with selector `"all"`, the resolved source set is exactly the
enumerated calendar list filtered to access roles owner/writer/reader, in
enumeration order: it equals that filter, is a sublist of the enumeration,
and contains a calendar iff it is enumerated with one of those roles. -/
theorem resolveAll_filters_by_access (args : SearchArgs) (env : Env)
    (h : args.calendarId = .str "all") :
    resolveCalendars args.calendarId env.calendarList
        = env.calendarList.filter (fun c => ACCESS_ROLES.contains c.accessRole)
      ∧ List.Sublist (resolveCalendars args.calendarId env.calendarList)
          env.calendarList
      ∧ ∀ c, c ∈ resolveCalendars args.calendarId env.calendarList ↔
          c ∈ env.calendarList ∧ c.accessRole ∈ ACCESS_ROLES := by
  rw [h]
  refine ⟨rfl, List.filter_sublist _, fun c => ?_⟩
  simp [resolveCalendars, List.mem_filter]

theorem resolveAll_filters_by_access_witness :
    resolveCalendars c9Args.calendarId c9Env.calendarList
      = [{ id := "a", summary := "A", accessRole := "owner" },
         { id := "c", summary := "C", accessRole := "reader" }] := by
  have h := resolveAll_filters_by_access c9Args c9Env rfl
  rw [h.1]
  decide

/-! ### C10 -/

/-- C10: an empty `fields` list projects with the default field subset,
the whole response is identical to omitting `fields`, and the default
projection is never empty (it always carries `calendarId`). -/
theorem empty_fields_uses_default (args : SearchArgs) (env : Env)
    (h : args.fields = some []) :
    effectiveFields args = DEFAULT_FIELDS
      ∧ effectiveFields { args with fields := none } = DEFAULT_FIELDS
      ∧ runSearchEvents args env = runSearchEvents { args with fields := none } env
      ∧ ∀ e : EventWithCalendar,
          ("calendarId", FieldVal.str e.calendarId)
              ∈ pickFields e (effectiveFields args)
            ∧ pickFields e (effectiveFields args) ≠ [] := by
  obtain ⟨cid, tmin, tmax, q, mr, et, ob, pt, f, se⟩ := args
  have h' : f = some [] := h
  subst h'
  refine ⟨rfl, rfl, rfl, fun e => ?_⟩
  have hmem : ("calendarId", FieldVal.str e.calendarId)
      ∈ pickFields e DEFAULT_FIELDS := by
    unfold pickFields
    refine List.mem_filterMap.mpr ⟨"calendarId", ?_, rfl⟩
    simp [DEFAULT_FIELDS]
  exact ⟨hmem, List.ne_nil_of_mem hmem⟩

theorem empty_fields_uses_default_witness :
    effectiveFields c10Args = DEFAULT_FIELDS
      ∧ effectiveFields { c10Args with fields := none } = DEFAULT_FIELDS
      ∧ runSearchEvents c10Args c10Env
          = runSearchEvents { c10Args with fields := none } c10Env
      ∧ ∀ e : EventWithCalendar,
          ("calendarId", FieldVal.str e.calendarId)
              ∈ pickFields e (effectiveFields c10Args)
            ∧ pickFields e (effectiveFields c10Args) ≠ [] :=
  empty_fields_uses_default c10Args c10Env rfl
